import Mathlib

/-!
Shallow embedding of the MineNews snapshot pipeline (backend generator and
read-side API server) for verification of the frozen specification claims.

Conventions of the embedding:
* JavaScript numbers are modelled as rationals (ℚ); vote counts, which the
  upstream votes API reports as non-negative counters, are modelled as ℕ.
* JavaScript `null`/absent values are modelled as `Option.none`.
* JavaScript `Map` objects built by repeated `set` are modelled as
  association lists where a later entry for the same key shadows an earlier
  one (lookup scans from the end).
* Timestamps are modelled as milliseconds since the Unix epoch (ℤ), the
  value `Date.prototype.getTime` returns.
* The file system is modelled as a map from file name to the snapshot
  document stored there (writes are atomic: a failed write leaves the file
  unchanged).
-/

namespace MineNews

/-- Lookup in a JavaScript `Map` modelled as an association list: the entry
inserted last for a key wins, matching `Map.prototype.set` overwrite
semantics followed by `get`. -/
def jsMapGet {α : Type} (entries : List (ℚ × α)) (k : ℚ) : Option α :=
  (entries.reverse.find? fun e => decide (e.1 = k)).map (·.2)

/-- Model of `Number(x.toFixed(6))` for a rational `x`: round to the nearest
multiple of 10⁻⁶, ties away from zero for the non-negative inputs that occur
here (ECMAScript `toFixed` picks the larger candidate on ties, which agrees
with `round` on non-negative inputs). -/
def round6 (q : ℚ) : ℚ :=
  ((round (q * 1000000) : ℤ) : ℚ) / 1000000

/-- Embedding of `likeRatio(up, down)` (generator, lines 81–86): missing vote
fields count as 0; a positive denominator yields the exact quotient, a zero
denominator yields null. -/
def likeRatio (up down : Option ℕ) : Option ℚ :=
  let u : ℕ := up.getD 0
  let d : ℕ := down.getD 0
  let denom := u + d
  if denom > 0 then some ((u : ℚ) / (denom : ℚ)) else none

/-- Two-digit zero padding, the model of `String(n).padStart(2, "0")` for the
non-negative calendar fields it is applied to. -/
def pad2 (n : ℤ) : String :=
  if n < 10 then "0" ++ toString n else toString n

/-- Model of `q.toFixed(2)` for the non-negative rationals `compact` feeds
it: round to two decimals, ties away from zero, print with exactly two
fractional digits. -/
def toFixed2 (q : ℚ) : String :=
  let s : ℤ := round (q * 100)
  let i : ℤ := Int.fdiv s 100
  let f : ℤ := s - 100 * i
  toString i ++ "." ++ pad2 f

/-- Rendering of a rational as JavaScript template interpolation renders a
number: integers print without a fractional part. -/
def jsShow (q : ℚ) : String :=
  if q.den = 1 then toString q.num else toString q

/-- Embedding of `compact(n)` (generator, lines 88–95). `Number(null)` is 0,
so a null metric prints as "0"; the `Number.isFinite` guard cannot fire in
the model because every modelled value is a finite rational. -/
def compact (n : Option ℚ) : Option String :=
  let x := n.getD 0
  if x ≥ 1000000000 then some (toFixed2 (x / 1000000000) ++ "B")
  else if x ≥ 1000000 then some (toFixed2 (x / 1000000) ++ "M")
  else if x ≥ 1000 then some (toFixed2 (x / 1000) ++ "K")
  else some (jsShow x)

/-- Model of `String.prototype.trim`: drop leading and trailing whitespace
characters. -/
def jsTrim (s : String) : String :=
  String.mk
    (((s.data.dropWhile Char.isWhitespace).reverse.dropWhile Char.isWhitespace).reverse)

/-- Collapse every maximal run of whitespace to a single space, the model of
`s.replace(/\s+/g, " ")`. The boolean argument records whether the previous
character was part of a whitespace run. -/
def squashWs : Bool → List Char → List Char
  | _, [] => []
  | inRun, c :: cs =>
    if c.isWhitespace then
      if inRun then squashWs true cs else ' ' :: squashWs true cs
    else c :: squashWs false cs

/-- Embedding of `clampDesc(s, max)` (generator, lines 97–101): falsy input
(null or the empty string) yields null; otherwise whitespace is collapsed
and trimmed and the result is truncated to `max` characters plus an
ellipsis when longer. -/
def clampDesc (s : Option String) (max : ℕ) : Option String :=
  match s with
  | none => none
  | some str =>
    if str = "" then none
    else
      let t := jsTrim (String.mk (squashWs false str.data))
      some (if t.length > max then t.take max ++ "…" else t)

/-- Candidate shape produced by the discovery stage (generator, lines
447–454). -/
structure Candidate where
  universeId : ℚ
  exploreName : Option String
  explorePlaying : Option ℚ
  exploreVisits : Option ℚ
deriving DecidableEq

/-- Creator record as rebuilt by enrichment from the details payload
(generator, lines 231–233). -/
structure Creator where
  id : ℚ
  name : String
  type : String
deriving DecidableEq

/-- Fields of one record of the batched game-details response that
enrichment reads (generator, lines 214–243); every field may be absent. -/
structure GameDetail where
  rootPlaceId : Option ℚ
  name : Option String
  description : Option String
  creator : Option Creator
  playing : Option ℚ
  visits : Option ℚ
  created : Option String
  updated : Option String
  maxPlayers : Option ℚ
  genre : Option String
deriving DecidableEq

/-- Fields of one record of the batched votes response that enrichment
reads (generator, lines 215–219). -/
structure GameVotes where
  upVotes : Option ℕ
  downVotes : Option ℕ
deriving DecidableEq

/-- EnrichedGame, the record enrichment produces per candidate (generator,
lines 226–247). -/
structure EnrichedGame where
  universeId : ℚ
  placeId : Option ℚ
  name : String
  description : Option String
  creator : Option Creator
  playing : Option ℚ
  visits : Option ℚ
  favorites : Option ℚ
  upVotes : Option ℕ
  downVotes : Option ℕ
  likeRatio : Option ℚ
  created : Option String
  updated : Option String
  maxPlayers : Option ℚ
  genre : Option String
  playing_compact : Option String
  visits_compact : Option String
  favorites_compact : Option String
deriving DecidableEq

/-- Embedding of the per-candidate body of `enrichCandidates` (generator,
lines 213–248). The three lookup maps stand for the results of
`batchFetchDetails`, `batchFetchVotes` and `fetchFavoritesCounts`; the
favorites map is total over the candidate ids in the code (a failed
favorites call stores null), so its null entries are `none` here. -/
def enrichOne (detailsMap : ℚ → Option GameDetail)
    (votesMap : ℚ → Option GameVotes)
    (favMap : ℚ → Option ℚ) (x : Candidate) : EnrichedGame :=
  let d := detailsMap x.universeId
  let v := votesMap x.universeId
  let fav := favMap x.universeId
  let up := v.bind (·.upVotes)
  let down := v.bind (·.downVotes)
  let playing := (d.bind (·.playing)).orElse (fun _ => x.explorePlaying)
  let visits := (d.bind (·.visits)).orElse (fun _ => x.exploreVisits)
  let ratio := likeRatio up down
  { universeId := x.universeId
    placeId := d.bind (·.rootPlaceId)
    name := ((d.bind (·.name)).orElse (fun _ => x.exploreName)).getD "(no name)"
    description := d.bind (·.description)
    creator := d.bind (·.creator)
    playing := playing
    visits := visits
    favorites := fav
    upVotes := up
    downVotes := down
    likeRatio := ratio.map round6
    created := d.bind (·.created)
    updated := d.bind (·.updated)
    maxPlayers := d.bind (·.maxPlayers)
    genre := d.bind (·.genre)
    playing_compact := compact playing
    visits_compact := compact visits
    favorites_compact := compact fav }

/-- Embedding of `enrichCandidates` (generator, lines 204–249): one enriched
record per candidate, in candidate order. -/
def enrichCandidates (candidates : List Candidate)
    (detailsMap : ℚ → Option GameDetail)
    (votesMap : ℚ → Option GameVotes)
    (favMap : ℚ → Option ℚ) : List EnrichedGame :=
  candidates.map (enrichOne detailsMap votesMap favMap)

/-- Section of a validated or fallback article. -/
structure Section where
  heading : String
  text : String
deriving DecidableEq

/-- Validated article shape (generator, lines 393–406). -/
structure Article where
  universeId : ℚ
  gameName : String
  title : String
  deck : String
  lede : String
  sections : List Section
  whyNow : String
  numbers : List String
  whatToDo : String
deriving DecidableEq

/-- Raw section of the parsed AI response: a field is `some` exactly when it
is present with string type (a `typeof x === "string"` check succeeds). -/
structure RawSection where
  heading : Option String
  text : Option String
deriving DecidableEq

/-- Raw article of the parsed AI response. `universeId` is `some` exactly
when `Number(a.universeId)` is finite; an array-typed field is `some`
exactly when `Array.isArray` succeeds; a string field is `some` exactly
when the `typeof` check succeeds. -/
structure RawArticle where
  universeId : Option ℚ
  gameName : Option String
  title : Option String
  deck : Option String
  lede : Option String
  sections : Option (List RawSection)
  whyNow : Option String
  numbers : Option (List String)
  whatToDo : Option String
deriving DecidableEq

/-- Parsed AI response object; the whole value is wrapped in `Option` by the
callers because parsing may fail (null / non-object). -/
structure RawAiPayload where
  headlines : Option (List String)
  articles : Option (List RawArticle)
deriving DecidableEq

/-- Result of `validateAiPayload` on success. -/
structure ValidatedAi where
  headlines : List String
  articleMap : List (ℚ × Article)
deriving DecidableEq

/-- Section validation and normalisation inside `validateAiPayload`
(generator, lines 384–386 and 399–402): both fields must be strings, and
they are trimmed. -/
def validSection : RawSection → Option Section
  | ⟨some h, some t⟩ => some ⟨jsTrim h, jsTrim t⟩
  | _ => none

/-- Per-article shape validation of `validateAiPayload` (generator, lines
372–407): an article with a non-finite id or any missing/ill-typed field is
dropped; an accepted article is normalised by trimming every string and
discarding empty number strings. -/
def validateArticle (a : RawArticle) : Option (ℚ × Article) := do
  let id ← a.universeId
  let gameName ← a.gameName
  let title ← a.title
  let deck ← a.deck
  let lede ← a.lede
  let rawSections ← a.sections
  let whyNow ← a.whyNow
  let rawNumbers ← a.numbers
  let whatToDo ← a.whatToDo
  if 3 ≤ rawSections.length ∧ rawSections.length ≤ 4 then
    let sections ← rawSections.mapM validSection
    pure (id,
      { universeId := id
        gameName := jsTrim gameName
        title := jsTrim title
        deck := jsTrim deck
        lede := jsTrim lede
        sections := sections
        whyNow := jsTrim whyNow
        numbers := (rawNumbers.map jsTrim).filter (fun s => s != "")
        whatToDo := jsTrim whatToDo })
  else none

/-- The article map built by the validation loop of `validateAiPayload`
(generator, lines 370–407): accepted articles in input order, later entries
for the same id shadowing earlier ones under `jsMapGet`. -/
def buildArticleMap (articles : List RawArticle) : List (ℚ × Article) :=
  articles.filterMap validateArticle

/-- The raw article list a possibly-null AI payload carries (empty when the
payload is null or `articles` is not an array). -/
def rawArticlesOf (ai : Option RawAiPayload) : List RawArticle :=
  match ai with
  | none => []
  | some a => a.articles.getD []

/-- Embedding of `validateAiPayload(ai, universeIds)` (generator, lines
360–414): headline normalisation, per-article validation, and the
all-or-nothing coverage check over the given universe ids. -/
def validateAiPayload (ai : Option RawAiPayload) (universeIds : List ℚ) :
    Option ValidatedAi :=
  match ai with
  | none => none
  | some ai =>
    let headlines :=
      ((((ai.headlines.getD []).map jsTrim).filter (fun s => s != "")).take 3)
    let articles := ai.articles.getD []
    if articles.isEmpty then none
    else
      let map := buildArticleMap articles
      if universeIds.all (fun id => (jsMapGet map id).isSome) then
        some { headlines := headlines, articleMap := map }
      else none

/-- Template interpolation of a nullable numeric metric, the model of the
string `${x ?? "—"}` for a number-or-null `x`. -/
def showOptNum (o : Option ℚ) : String :=
  match o with
  | none => "—"
  | some q => jsShow q

/-- Template interpolation of a nullable string metric. -/
def showOptStr (o : Option String) : String :=
  o.getD "—"

/-- Embedding of `fallbackArticle(g)` (generator, lines 477–502): the
deterministic article built from the enriched record alone. -/
def fallbackArticle (g : EnrichedGame) : Article :=
  { universeId := g.universeId
    gameName := g.name
    title := g.name
    deck := (clampDesc g.description 120).getD "설명이 없습니다."
    lede := (clampDesc g.description 260).getD "설명이 없습니다."
    sections :=
      [ ⟨"무엇을 하는 게임인가", (clampDesc g.description 420).getD "설명이 없습니다."⟩,
        ⟨"플레이 포인트", "제공된 설명을 바탕으로 핵심 목표/콘텐츠를 확인해보세요."⟩,
        ⟨"지표 요약",
          "현재 동접(playing): " ++ showOptNum g.playing ++
          ", 방문(visits): " ++ showOptNum g.visits ++
          ", 즐겨찾기(favorites): " ++ showOptNum g.favorites ++
          ", 좋아요 비율(likeRatio): " ++ showOptNum g.likeRatio⟩ ]
    whyNow := "설명과 지표에서 확인 가능한 범위 내에서만 요약했습니다."
    numbers :=
      [ "동접(playing): " ++ showOptNum g.playing,
        "방문(visits): " ++ showOptNum g.visits,
        "즐겨찾기(favorites): " ++ showOptNum g.favorites,
        "좋아요 비율(likeRatio): " ++ showOptNum g.likeRatio,
        "장르(genre): " ++ showOptStr g.genre,
        "최대 인원(maxPlayers): " ++ showOptNum g.maxPlayers,
        "업데이트(updated): " ++ showOptStr g.updated ]
    whatToDo := "설명에 적힌 목표와 콘텐츠 흐름을 따라 첫 판을 시작해보세요." }

/-- Article as published in a snapshot: the chosen article with the game's
placeId spread in (generator, lines 504–507). -/
structure PublishedArticle where
  article : Article
  placeId : Option ℚ
deriving DecidableEq

/-- Per-game article selection of `generateSnapshot` (generator, lines
504–507): the validated map entry when present, else the fallback. -/
def assembleArticles (top5 : List EnrichedGame)
    (articleMap : List (ℚ × Article)) : List PublishedArticle :=
  top5.map fun g =>
    { article := (jsMapGet articleMap g.universeId).getD (fallbackArticle g)
      placeId := g.placeId }

/-- The article map `generateSnapshot` assembles from, `validated?.articleMap
?? new Map()` (generator, line 474). -/
def editionArticleMap (top5 : List EnrichedGame) (aiRaw : Option RawAiPayload) :
    List (ℚ × Article) :=
  match validateAiPayload aiRaw (top5.map (·.universeId)) with
  | some v => v.articleMap
  | none => []

/-- The pure assembly tail of `generateSnapshot` (generator, lines 473–514):
validation of the raw AI payload against the top-5 ids, headline selection
(`validated?.headlines?.length ? validated.headlines : []`, line 475), and
per-game article selection. Returns (headlines, articles). -/
def assembleEdition (top5 : List EnrichedGame) (aiRaw : Option RawAiPayload) :
    List String × List PublishedArticle :=
  let headlines :=
    match validateAiPayload aiRaw (top5.map (·.universeId)) with
    | some v => if v.headlines.isEmpty then [] else v.headlines
    | none => []
  (headlines, assembleArticles top5 (editionArticleMap top5 aiRaw))

/-- Civil date (year, month, day) of a day count since 1970-01-01, the
standard proleptic-Gregorian conversion that `Date.prototype.getUTCFullYear`
/ `getUTCMonth` / `getUTCDate` perform on a millisecond timestamp's day
number. -/
def civilFromDays (days : ℤ) : ℤ × ℤ × ℤ :=
  let z := days + 719468
  let era := Int.fdiv z 146097
  let doe := z - era * 146097
  let yoe :=
    Int.fdiv (doe - Int.fdiv doe 1460 + Int.fdiv doe 36524 - Int.fdiv doe 146096) 365
  let y := yoe + era * 400
  let doy := doe - (365 * yoe + Int.fdiv yoe 4 - Int.fdiv yoe 100)
  let mp := Int.fdiv (5 * doy + 2) 153
  let d := doy - Int.fdiv (153 * mp + 2) 5 + 1
  let m := if mp < 10 then mp + 3 else mp - 9
  (if m ≤ 2 then y + 1 else y, m, d)

/-- Embedding of `kstDateKey(d)` (generator, lines 417–424) on a
millisecond timestamp: shift by the fixed +9h offset and format the UTC
calendar fields of the shifted instant as YYYY-MM-DD with two-digit
padding of month and day. -/
def kstDateKey (ms : ℤ) : String :=
  let kst := ms + 9 * 60 * 60 * 1000
  let days := Int.fdiv kst 86400000
  let c := civilFromDays days
  toString c.1 ++ "-" ++ pad2 c.2.1 ++ "-" ++ pad2 c.2.2

/-- The dated snapshot file name `roblox_top5_<key>.json` (generator, line
432). -/
def datedSnapshotName (generatedAt : ℤ) : String :=
  "roblox_top5_" ++ kstDateKey generatedAt ++ ".json"

/-- Snapshot meta block (generator, line 511). -/
structure Meta where
  sortName : String
  sortId : String
deriving DecidableEq

/-- The persisted snapshot document (generator, lines 509–518).
`generatedAt` is modelled as epoch milliseconds, the instant the ISO
timestamp string denotes. -/
structure Snapshot where
  generatedAt : ℤ
  meta : Meta
  headlines : List String
  articles : List PublishedArticle
  top5 : List EnrichedGame
  top100 : List EnrichedGame
deriving DecidableEq

/-- The snapshots directory modelled as a map from file name to the
snapshot document stored in that file. -/
def FileSys : Type := String → Option Snapshot

/-- An atomic file write: the named file now holds the document, all other
files are untouched. -/
def writeFileAt (fs : FileSys) (name : String) (content : Snapshot) : FileSys :=
  fun n => if n = name then some content else fs n

/-- Embedding of `saveSnapshot(payload)` (generator, lines 426–438): write
the dated file, then `latest.json`, with the same document. The two
booleans say whether each write succeeds; a failed write raises (second
component `some` error) and leaves that file unchanged, and a failure of
the first write prevents the second. -/
def saveSnapshot (fs : FileSys) (payload : Snapshot)
    (okDated okLatest : Bool) : FileSys × Option String :=
  let dated := datedSnapshotName payload.generatedAt
  if okDated then
    let fs1 := writeFileAt fs dated payload
    if okLatest then (writeFileAt fs1 "latest.json" payload, none)
    else (fs1, some "EIO: write latest.json failed")
  else (fs, some "EIO: write dated snapshot failed")

/-- Module-level mutable state of the generator process (generator, lines
24–26) together with the snapshot directory. -/
structure ServerState where
  cachedSnapshot : Option Snapshot
  lastUpdated : Option String
  lastError : Option String
  files : FileSys

/-- Embedding of one run of `refreshSnapshot` (generator, lines 522–539).
`gen` is the outcome of `generateSnapshot()` (which may throw); on success
the in-memory cache and `lastUpdated` are set, then `saveSnapshot` runs and
any save error is caught into `lastError`. -/
def refreshSnapshot (st : ServerState) (gen : Except String Snapshot)
    (okDated okLatest : Bool) (now : String) : ServerState :=
  match gen with
  | .error e => { st with lastError := some e }
  | .ok snap =>
    let st1 :=
      { st with
        lastError := none
        cachedSnapshot := some snap
        lastUpdated := some now }
    match saveSnapshot st.files snap okDated okLatest with
    | (fs, none) => { st1 with files := fs }
    | (fs, some e) => { st1 with files := fs, lastError := some e }

/-- The `prevMeta` block of the delta view (read server, lines 67–69). -/
structure PrevMeta where
  generatedAt : ℤ
  sortId : String
  sortName : String
deriving DecidableEq

/-- The per-game delta overlay (read server, lines 53–61). -/
structure Delta where
  playing : Option ℚ
  visits : Option ℚ
  favorites : Option ℚ
  likeRatio : Option ℚ
  playingPct : Option ℚ
  favoritesPct : Option ℚ
  prevUpdated : Option String
deriving DecidableEq

/-- A top-5 game with its delta overlay spread in (read server, lines
51–62): `base` is the unchanged persisted game record. -/
structure DeltaGame where
  base : EnrichedGame
  delta : Delta
deriving DecidableEq

/-- The payload of `GET /api/snapshot/latest` (read server, lines 65–71):
the latest snapshot with `prevMeta` added and `top5` replaced by
delta-annotated games. -/
structure DeltaSnapshot where
  generatedAt : ℤ
  meta : Meta
  headlines : List String
  articles : List PublishedArticle
  prevMeta : Option PrevMeta
  top5 : List DeltaGame
  top100 : List EnrichedGame
deriving DecidableEq

/-- Embedding of `deltaNumber(cur, prev)` (read server, lines 26–29). -/
def deltaNumber (cur prev : Option ℚ) : Option ℚ :=
  match cur, prev with
  | some c, some p => some (c - p)
  | _, _ => none

/-- Embedding of `deltaPct(cur, prev)` (read server, lines 31–35). -/
def deltaPct (cur prev : Option ℚ) : Option ℚ :=
  match cur, prev with
  | some c, some p => if p = 0 then none else some ((c - p) / p)
  | _, _ => none

/-- The delta overlay for one latest game given the previous edition's
record for the same universe id, if any (read server, lines 43–61). -/
def deltaFor (g : EnrichedGame) (p : Option EnrichedGame) : Delta :=
  { playing := deltaNumber g.playing (p.bind (·.playing))
    visits := deltaNumber g.visits (p.bind (·.visits))
    favorites := deltaNumber g.favorites (p.bind (·.favorites))
    likeRatio := deltaNumber g.likeRatio (p.bind (·.likeRatio))
    playingPct := deltaPct g.playing (p.bind (·.playing))
    favoritesPct := deltaPct g.favorites (p.bind (·.favorites))
    prevUpdated := p.bind (·.updated) }

/-- Embedding of `buildDeltaSnapshot(latest, prev)` (read server, lines
37–72): every latest field is spread through unchanged, `prevMeta` is added,
and each top-5 game gets its delta overlay by universe-id lookup in the
previous edition's top5. -/
def buildDeltaSnapshot (latest : Snapshot) (prev : Option Snapshot) :
    DeltaSnapshot :=
  let prevMap := ((prev.map (·.top5)).getD []).map (fun g => (g.universeId, g))
  { generatedAt := latest.generatedAt
    meta := latest.meta
    headlines := latest.headlines
    articles := latest.articles
    prevMeta :=
      prev.map fun p =>
        { generatedAt := p.generatedAt
          sortId := p.meta.sortId
          sortName := p.meta.sortName }
    top5 := latest.top5.map fun g =>
      { base := g, delta := deltaFor g (jsMapGet prevMap g.universeId) }
    top100 := latest.top100 }

/-- One thumbnail-cache entry (read server, line 11). -/
structure CacheEntry where
  expiresAt : ℤ
  payload : String
deriving DecidableEq

/-- The thumbnail cache TTL in milliseconds (read server, line 12). -/
def THUMB_TTL_MS : ℤ := 1000 * 60 * 30

/-- The thumbnail cache modelled as a map from id-list key to entry. -/
def ThumbCache : Type := String → Option CacheEntry

/-- Pointwise cache update, the model of `thumbCache.set`. -/
def thumbCacheSet (c : ThumbCache) (key : String) (e : CacheEntry) : ThumbCache :=
  fun k => if k = key then some e else c k

/-- HTTP outcome of one `GET /api/thumbnails` request. -/
inductive ThumbResult
  | ok (payload : String)
  | badRequest
  | upstreamFailed
deriving DecidableEq

/-- Embedding of the `/api/thumbnails` handler (read server, lines 106–127):
trim the query, reject an empty key with 400, serve an unexpired cache
entry without an upstream call, otherwise call upstream (third component
records that a call was issued) and on success store the payload with
expiry `now + THUMB_TTL_MS`. -/
def thumbRequest (cache : ThumbCache) (q : String) (now : ℤ)
    (upstream : Except String String) :
    ThumbResult × ThumbCache × Bool :=
  let key := jsTrim q
  if key = "" then (.badRequest, cache, false)
  else
    let hit :=
      match cache key with
      | some e => if e.expiresAt > now then some e.payload else none
      | none => none
    match hit with
    | some payload => (.ok payload, cache, false)
    | none =>
      match upstream with
      | .ok json =>
        (.ok json, thumbCacheSet cache key ⟨now + THUMB_TTL_MS, json⟩, true)
      | .error _ => (.upstreamFailed, cache, true)

/-! ### Concrete fixtures used by witnesses and counterexamples -/

/-- A concrete enriched game record with every metric present. -/
def gameA : EnrichedGame :=
  { universeId := 1
    placeId := some 10
    name := "Alpha"
    description := some "A small adventure game."
    creator := none
    playing := some 120
    visits := some 500
    favorites := some 40
    upVotes := some 3
    downVotes := some 1
    likeRatio := some (3 / 4)
    created := some "c1"
    updated := some "u1"
    maxPlayers := some 8
    genre := some "RPG"
    playing_compact := some "120"
    visits_compact := some "500"
    favorites_compact := some "40" }

/-- A concrete enriched game record with no description and a null playing
metric. -/
def gameB : EnrichedGame :=
  { gameA with
    universeId := 2
    name := "Beta"
    description := none
    playing := none }

/-- A raw AI article of valid shape covering universe id 1 only. -/
def rawArticleA : RawArticle :=
  { universeId := some 1
    gameName := some "Alpha"
    title := some "Alpha rises"
    deck := some "deck"
    lede := some "lede"
    sections := some
      [ ⟨some "h1", some "t1"⟩, ⟨some "h2", some "t2"⟩, ⟨some "h3", some "t3"⟩ ]
    whyNow := some "why"
    numbers := some ["n1"]
    whatToDo := some "do" }

/-- A raw AI payload whose only article covers universe id 1 and whose only
headline is whitespace. -/
def aiRawW : RawAiPayload :=
  { headlines := some ["  "]
    articles := some [rawArticleA] }

/-- The previous edition's record of game 1 with 100 players. -/
def prevGameA : EnrichedGame :=
  { gameA with playing := some 100 }

/-- A concrete latest snapshot whose top5 is just `gameA`. -/
def latestSnapW : Snapshot :=
  { generatedAt := 1704124800000
    meta := ⟨"Popular", "s1"⟩
    headlines := []
    articles := []
    top5 := [gameA]
    top100 := [] }

/-- A concrete previous snapshot whose top5 carries `prevGameA`. -/
def prevSnapW : Snapshot :=
  { latestSnapW with generatedAt := 1703520000000, top5 := [prevGameA] }

/-- A second distinct snapshot document for refresh tests. -/
def snapNextW : Snapshot :=
  { latestSnapW with generatedAt := 1704729600000 }

/-- A generator state whose last-known-good snapshot is `latestSnapW`, also
stored in `latest.json`. -/
def stateW : ServerState :=
  { cachedSnapshot := some latestSnapW
    lastUpdated := some "t0"
    lastError := none
    files := fun n => if n = "latest.json" then some latestSnapW else none }

/-! ### Helper lemmas -/

lemma likeRatio_eq (up down : Option ℕ) :
    likeRatio up down =
      if up.getD 0 + down.getD 0 > 0
      then some ((up.getD 0 : ℚ) / ((up.getD 0 + down.getD 0 : ℕ) : ℚ))
      else none := rfl

lemma round6_nonneg {q : ℚ} (h0 : 0 ≤ q) : 0 ≤ round6 q := by
  unfold round6
  have hr : (0 : ℤ) ≤ round (q * 1000000) := by
    have h1 : (0 : ℚ) ≤ q * 1000000 := by positivity
    calc (0 : ℤ) = round (0 : ℚ) := by simp
      _ ≤ round (q * 1000000) := by
          rw [round_eq, round_eq]
          exact Int.floor_le_floor (by linarith)
  have : (0 : ℚ) ≤ ((round (q * 1000000) : ℤ) : ℚ) := by exact_mod_cast hr
  positivity

lemma round6_le_one {q : ℚ} (h1 : q ≤ 1) : round6 q ≤ 1 := by
  unfold round6
  have hr : round (q * 1000000) ≤ (1000000 : ℤ) := by
    have hle : q * 1000000 ≤ 1000000 := by linarith
    calc round (q * 1000000) ≤ round ((1000000 : ℚ)) := by
          rw [round_eq, round_eq]
          exact Int.floor_le_floor (by linarith)
      _ = 1000000 := by
          have : ((1000000 : ℤ) : ℚ) = (1000000 : ℚ) := by norm_num
          rw [← this, round_intCast]
  rw [div_le_one (by norm_num)]
  exact_mod_cast hr

lemma datedSnapshotName_ne_latest (t : ℤ) : datedSnapshotName t ≠ "latest.json" := by
  intro h
  have hl := congrArg String.length h
  rw [datedSnapshotName, String.length_append, String.length_append] at hl
  rw [show ("roblox_top5_" : String).length = 12 from rfl,
      show (".json" : String).length = 5 from rfl,
      show ("latest.json" : String).length = 11 from rfl] at hl
  omega

lemma validateAiPayload_some_inv {ai : Option RawAiPayload} {ids : List ℚ}
    {v : ValidatedAi} (h : validateAiPayload ai ids = some v) :
    (∃ a, ai = some a ∧ v.articleMap = buildArticleMap (a.articles.getD [])) ∧
    ∀ id ∈ ids, (jsMapGet v.articleMap id).isSome = true := by
  cases ai with
  | none => simp [validateAiPayload] at h
  | some a =>
    rw [validateAiPayload] at h
    cases hemp : (a.articles.getD []).isEmpty with
    | true => rw [if_pos (by simp [hemp])] at h; cases h
    | false =>
      rw [if_neg (by simp [hemp])] at h
      cases hall : (ids.all fun id =>
          (jsMapGet (buildArticleMap (a.articles.getD [])) id).isSome) with
      | false => rw [if_neg (by simp [hall])] at h; cases h
      | true =>
        rw [if_pos (by simp [hall])] at h
        injection h with h
        refine ⟨⟨a, rfl, by rw [← h]⟩, ?_⟩
        intro id hid
        rw [← h]
        exact List.all_eq_true.1 hall id hid


lemma buildDeltaSnapshot_top5_length (latest : Snapshot) (prev : Option Snapshot) :
    (buildDeltaSnapshot latest prev).top5.length = latest.top5.length := by
  simp [buildDeltaSnapshot]

lemma buildDeltaSnapshot_top5_get (latest : Snapshot) (prev : Option Snapshot)
    (i : ℕ) (h : i < latest.top5.length)
    (h2 : i < (buildDeltaSnapshot latest prev).top5.length) :
    (buildDeltaSnapshot latest prev).top5.get ⟨i, h2⟩ =
      { base := latest.top5.get ⟨i, h⟩
        delta := deltaFor (latest.top5.get ⟨i, h⟩)
          (jsMapGet (((prev.map (·.top5)).getD []).map (fun g => (g.universeId, g)))
            ((latest.top5.get ⟨i, h⟩).universeId)) } := by
  simp [buildDeltaSnapshot, List.get_eq_getElem, List.getElem_map]

lemma likeRatio_none_iff (up down : Option ℕ) :
    (likeRatio up down).map round6 = none ↔ up.getD 0 + down.getD 0 = 0 := by
  rw [likeRatio_eq]
  by_cases h : up.getD 0 + down.getD 0 > 0
  · rw [if_pos h]; simp; omega
  · rw [if_neg h]; simp; omega

lemma likeRatio_pos_eq (up down : Option ℕ)
    (h : up.getD 0 + down.getD 0 ≠ 0) :
    (likeRatio up down).map round6 =
      some (round6 ((up.getD 0 : ℚ) / ((up.getD 0 : ℚ) + (down.getD 0 : ℚ)))) := by
  rw [likeRatio_eq, if_pos (by omega)]
  simp only [Option.map_some']
  congr 1
  congr 1
  push_cast
  ring

lemma likeRatio_mem_unit (up down : Option ℕ) (r : ℚ)
    (h : (likeRatio up down).map round6 = some r) : 0 ≤ r ∧ r ≤ 1 := by
  rw [likeRatio_eq] at h
  by_cases hpos : up.getD 0 + down.getD 0 > 0
  · rw [if_pos hpos] at h
    simp only [Option.map_some', Option.some.injEq] at h
    subst h
    have hd : (0 : ℚ) < ((up.getD 0 + down.getD 0 : ℕ) : ℚ) := by
      exact_mod_cast hpos
    have h0 : (0 : ℚ) ≤ (up.getD 0 : ℚ) / ((up.getD 0 + down.getD 0 : ℕ) : ℚ) := by
      positivity
    have h1 : (up.getD 0 : ℚ) / ((up.getD 0 + down.getD 0 : ℕ) : ℚ) ≤ 1 := by
      rw [div_le_one hd]
      exact_mod_cast Nat.le_add_right (up.getD 0) (down.getD 0)
    exact ⟨round6_nonneg h0, round6_le_one h1⟩
  · rw [if_neg hpos] at h
    simp at h

/-! ### Claim theorems -/

/-- C6: the snapshot date key is derived from `generatedAt` under the fixed
UTC+9 offset; a `generatedAt` of 2024-01-01T16:00:00.000Z (epoch
1704124800000 ms) yields the calendar date key 2024-01-02, and the dated
snapshot file is named `roblox_top5_2024-01-02.json` for that key. -/
theorem claim6_date_key :
    kstDateKey 1704124800000 = "2024-01-02" ∧
    datedSnapshotName 1704124800000 = "roblox_top5_2024-01-02.json" :=
  ⟨rfl, rfl⟩

/-- C7: enrichment returns exactly one enriched record per candidate,
preserving input order: the output has the input's length and the i-th
output record carries the i-th candidate's universeId. -/
theorem claim7_enrich_order (candidates : List Candidate)
    (dm : ℚ → Option GameDetail) (vm : ℚ → Option GameVotes)
    (fm : ℚ → Option ℚ) (i : ℕ) (h : i < candidates.length)
    (h2 : i < (enrichCandidates candidates dm vm fm).length) :
    (enrichCandidates candidates dm vm fm).length = candidates.length ∧
    ((enrichCandidates candidates dm vm fm).get ⟨i, h2⟩).universeId =
      (candidates.get ⟨i, h⟩).universeId := by
  refine ⟨by simp [enrichCandidates], ?_⟩
  simp [enrichCandidates, enrichOne, List.get_eq_getElem, List.getElem_map]

/-- C9: `buildDeltaSnapshot` only adds information: every field of the
latest snapshot other than `top5` and the added `prevMeta` is returned
unchanged, and every top-5 game is returned unchanged as the `base` of its
delta-annotated record, with only the `delta` object added. -/
theorem claim9_delta_frame (latest : Snapshot) (prev : Option Snapshot)
    (i : ℕ) (h : i < latest.top5.length)
    (h2 : i < (buildDeltaSnapshot latest prev).top5.length) :
    (buildDeltaSnapshot latest prev).generatedAt = latest.generatedAt ∧
    (buildDeltaSnapshot latest prev).meta = latest.meta ∧
    (buildDeltaSnapshot latest prev).headlines = latest.headlines ∧
    (buildDeltaSnapshot latest prev).articles = latest.articles ∧
    (buildDeltaSnapshot latest prev).top100 = latest.top100 ∧
    (buildDeltaSnapshot latest prev).top5.length = latest.top5.length ∧
    ((buildDeltaSnapshot latest prev).top5.get ⟨i, h2⟩).base =
      latest.top5.get ⟨i, h⟩ := by
  refine ⟨rfl, rfl, rfl, rfl, rfl, buildDeltaSnapshot_top5_length latest prev, ?_⟩
  rw [buildDeltaSnapshot_top5_get latest prev i h h2]

/-- Witness for C9 at a concrete snapshot pair. -/
theorem claim9_witness :
    ((buildDeltaSnapshot
        { generatedAt := 0, meta := ⟨"Popular", "s1"⟩, headlines := ["h"],
          articles := [], top5 := [gameA], top100 := [] }
        none).top5.get ⟨0, by decide⟩).base = gameA := by
  exact (claim9_delta_frame _ none 0 (by decide) (by decide)).2.2.2.2.2.2

/-- C4: for each game in the latest snapshot's top5, the delta overlay
computes `cur - prev` for the number fields and `(cur - prev)/prev` for the
percentage fields of a matched previous game, and yields null (never zero)
whenever there is no previous snapshot, the universeId is absent from the
previous top5, or the relevant current or previous value is null — and for
the percentage fields also when the previous value is zero. -/
theorem claim4_delta (latest : Snapshot) (prev : Option Snapshot)
    (i : ℕ) (h : i < latest.top5.length)
    (h2 : i < (buildDeltaSnapshot latest prev).top5.length) :
    let g := latest.top5.get ⟨i, h⟩
    let prevMap := ((prev.map (·.top5)).getD []).map (fun x => (x.universeId, x))
    let dg := (buildDeltaSnapshot latest prev).top5.get ⟨i, h2⟩
    (∀ pg, jsMapGet prevMap g.universeId = some pg →
      (∀ c p, g.playing = some c → pg.playing = some p →
        dg.delta.playing = some (c - p) ∧
        (p ≠ 0 → dg.delta.playingPct = some ((c - p) / p)) ∧
        (p = 0 → dg.delta.playingPct = none)) ∧
      (∀ c p, g.visits = some c → pg.visits = some p →
        dg.delta.visits = some (c - p)) ∧
      (∀ c p, g.favorites = some c → pg.favorites = some p →
        dg.delta.favorites = some (c - p) ∧
        (p ≠ 0 → dg.delta.favoritesPct = some ((c - p) / p)) ∧
        (p = 0 → dg.delta.favoritesPct = none)) ∧
      (∀ c p, g.likeRatio = some c → pg.likeRatio = some p →
        dg.delta.likeRatio = some (c - p)) ∧
      (pg.playing = none → dg.delta.playing = none ∧ dg.delta.playingPct = none)) ∧
    (prev = none →
      dg.delta.playing = none ∧ dg.delta.visits = none ∧
      dg.delta.favorites = none ∧ dg.delta.likeRatio = none ∧
      dg.delta.playingPct = none ∧ dg.delta.favoritesPct = none) ∧
    (jsMapGet prevMap g.universeId = none →
      dg.delta.playing = none ∧ dg.delta.visits = none ∧
      dg.delta.favorites = none ∧ dg.delta.likeRatio = none ∧
      dg.delta.playingPct = none ∧ dg.delta.favoritesPct = none) ∧
    (g.playing = none → dg.delta.playing = none ∧ dg.delta.playingPct = none) := by
  intro g prevMap dg
  have hdg : dg = { base := g, delta := deltaFor g (jsMapGet prevMap g.universeId) } :=
    buildDeltaSnapshot_top5_get latest prev i h h2
  refine ⟨?_, ?_, ?_, ?_⟩
  · intro pg hpg
    refine ⟨?_, ?_, ?_, ?_, ?_⟩
    · intro c p hc hp
      refine ⟨?_, ?_, ?_⟩
      · simp [hdg, deltaFor, deltaNumber, hpg, hc, hp]
      · intro hne; simp [hdg, deltaFor, deltaPct, hpg, hc, hp, hne]
      · intro hz; simp [hdg, deltaFor, deltaPct, hpg, hc, hp, hz]
    · intro c p hc hp
      simp [hdg, deltaFor, deltaNumber, hpg, hc, hp]
    · intro c p hc hp
      refine ⟨?_, ?_, ?_⟩
      · simp [hdg, deltaFor, deltaNumber, hpg, hc, hp]
      · intro hne; simp [hdg, deltaFor, deltaPct, hpg, hc, hp, hne]
      · intro hz; simp [hdg, deltaFor, deltaPct, hpg, hc, hp, hz]
    · intro c p hc hp
      simp [hdg, deltaFor, deltaNumber, hpg, hc, hp]
    · intro hnone
      constructor
      · simp [hdg, deltaFor, deltaNumber, hpg, hnone]
      · simp [hdg, deltaFor, deltaPct, hpg, hnone]
  · intro hprev
    subst hprev
    have hnone : jsMapGet prevMap g.universeId = none := by
      simp [prevMap, jsMapGet]
    simp [hdg, deltaFor, deltaNumber, deltaPct, hnone]
  · intro hnone
    simp [hdg, deltaFor, deltaNumber, deltaPct, hnone]
  · intro hc
    cases hlook : jsMapGet prevMap g.universeId with
    | none => simp [hdg, deltaFor, deltaNumber, deltaPct, hlook]
    | some pg => simp [hdg, deltaFor, deltaNumber, deltaPct, hlook, hc]

/-- Witness for C7 at a concrete two-candidate list. -/
theorem claim7_witness :
    (enrichCandidates [⟨7, none, none, none⟩, ⟨8, none, none, none⟩]
        (fun _ => none) (fun _ => none) (fun _ => none)).length = 2 ∧
    ((enrichCandidates [⟨7, none, none, none⟩, ⟨8, none, none, none⟩]
        (fun _ => none) (fun _ => none) (fun _ => none)).get
      ⟨1, by decide⟩).universeId = 8 := by
  have h := claim7_enrich_order [⟨7, none, none, none⟩, ⟨8, none, none, none⟩]
      (fun _ => none) (fun _ => none) (fun _ => none) 1 (by decide) (by decide)
  exact ⟨h.1, h.2.trans (by decide)⟩

/-- Witness for C4: current playing 120 against previous playing 100 yields
delta 20 and 20 %. -/
theorem claim4_witness :
    ((buildDeltaSnapshot latestSnapW (some prevSnapW)).top5.get
        ⟨0, by decide⟩).delta.playing = some 20 ∧
    ((buildDeltaSnapshot latestSnapW (some prevSnapW)).top5.get
        ⟨0, by decide⟩).delta.playingPct = some 0.2 := by
  have h := claim4_delta latestSnapW (some prevSnapW) 0 (by decide) (by decide)
  have h1 := (h.1 prevGameA (by rfl)).1 120 100 (by rfl) (by rfl)
  refine ⟨h1.1.trans (by norm_num), ?_⟩
  have h2 := h1.2.1 (by norm_num)
  rw [h2]
  norm_num

/-- C10: when the AI payload is rejected by validation, or its validated
headline list is empty (no non-empty headline strings survived
normalisation), the published edition's headlines field is the empty list,
while fallback assembly still yields one article per top-5 game. -/
theorem claim10_headlines (top5 : List EnrichedGame) (aiRaw : Option RawAiPayload)
    (h : validateAiPayload aiRaw (top5.map (·.universeId)) = none ∨
         ∃ v, validateAiPayload aiRaw (top5.map (·.universeId)) = some v ∧
           v.headlines = []) :
    (assembleEdition top5 aiRaw).1 = [] ∧
    (assembleEdition top5 aiRaw).2.length = top5.length := by
  constructor
  · rcases h with h | ⟨v, hv, hh⟩
    · simp [assembleEdition, h]
    · simp [assembleEdition, hv, hh]
  · simp [assembleEdition, assembleArticles]

/-- Witness for C10 at a concrete rejected payload. -/
theorem claim10_witness :
    (assembleEdition [gameA] none).1 = [] ∧
    (assembleEdition [gameA] none).2.length = 1 :=
  claim10_headlines [gameA] none (Or.inl rfl)

/-- C1: if the AI response, after per-article shape validation, does not
contain a valid article for every top-5 universeId, the whole response is
rejected (`validateAiPayload` returns null) and every published article is
the fallback article; and in general the published edition never mixes:
either every top-5 game resolves to a validated AI article or none does. -/
theorem claim1_ai_all_or_nothing (top5 : List EnrichedGame)
    (aiRaw : Option RawAiPayload) :
    (¬ (∀ id ∈ top5.map (·.universeId),
          (jsMapGet (buildArticleMap (rawArticlesOf aiRaw)) id).isSome = true) →
      validateAiPayload aiRaw (top5.map (·.universeId)) = none ∧
      (assembleEdition top5 aiRaw).2 =
        top5.map (fun g => { article := fallbackArticle g, placeId := g.placeId })) ∧
    ((∀ g ∈ top5,
        (jsMapGet (editionArticleMap top5 aiRaw) g.universeId).isSome = true) ∨
     (∀ g ∈ top5,
        jsMapGet (editionArticleMap top5 aiRaw) g.universeId = none)) := by
  constructor
  · intro hnc
    have hv : validateAiPayload aiRaw (top5.map (·.universeId)) = none := by
      cases hval : validateAiPayload aiRaw (top5.map (·.universeId)) with
      | none => rfl
      | some v =>
        exfalso
        obtain ⟨⟨a, rfl, hmap⟩, hcov⟩ := validateAiPayload_some_inv hval
        exact hnc fun id hid => by
          have := hcov id hid
          rw [hmap] at this
          simpa [rawArticlesOf] using this
    refine ⟨hv, ?_⟩
    simp [assembleEdition, assembleArticles, editionArticleMap, hv, jsMapGet]
  · cases hval : validateAiPayload aiRaw (top5.map (·.universeId)) with
    | none =>
      right
      intro g _
      simp [editionArticleMap, hval, jsMapGet]
    | some v =>
      left
      intro g hg
      obtain ⟨_, hcov⟩ := validateAiPayload_some_inv hval
      have := hcov g.universeId (List.mem_map_of_mem (·.universeId) hg)
      simpa [editionArticleMap, hval] using this

/-- Witness for C1: a payload covering only game 1 of the pair (1, 2) is
rejected whole and both games fall back. -/
theorem claim1_witness :
    validateAiPayload (some aiRawW) ([gameA, gameB].map (·.universeId)) = none ∧
    (assembleEdition [gameA, gameB] (some aiRawW)).2 =
      [gameA, gameB].map
        (fun g => { article := fallbackArticle g, placeId := g.placeId }) :=
  (claim1_ai_all_or_nothing [gameA, gameB] (some aiRawW)).1 (by decide)

/-- C8: a thumbnail request that misses the cache and succeeds upstream
stores the payload for `THUMB_TTL_MS` (30 minutes); a second request for
the same query string within the TTL window returns the cached payload,
issues no upstream call and leaves the cache unchanged; a request for the
same key once the TTL has expired issues a fresh upstream call and
overwrites the cache entry. -/
theorem claim8_thumb_cache (cache : ThumbCache) (q : String) (t1 t2 t3 : ℤ)
    (p1 p2 : String) (up2 : Except String String)
    (hq : jsTrim q ≠ "")
    (hmiss : ∀ e, cache (jsTrim q) = some e → e.expiresAt ≤ t1)
    (hfresh : t2 < t1 + THUMB_TTL_MS)
    (hexp : t1 + THUMB_TTL_MS ≤ t3) :
    (thumbRequest cache q t1 (.ok p1)).1 = .ok p1 ∧
    (thumbRequest cache q t1 (.ok p1)).2.2 = true ∧
    (thumbRequest cache q t1 (.ok p1)).2.1 (jsTrim q) =
      some ⟨t1 + THUMB_TTL_MS, p1⟩ ∧
    thumbRequest (thumbRequest cache q t1 (.ok p1)).2.1 q t2 up2 =
      (.ok p1, (thumbRequest cache q t1 (.ok p1)).2.1, false) ∧
    (thumbRequest (thumbRequest cache q t1 (.ok p1)).2.1 q t3 (.ok p2)).1 = .ok p2 ∧
    (thumbRequest (thumbRequest cache q t1 (.ok p1)).2.1 q t3 (.ok p2)).2.2 = true ∧
    (thumbRequest (thumbRequest cache q t1 (.ok p1)).2.1 q t3 (.ok p2)).2.1 (jsTrim q) =
      some ⟨t3 + THUMB_TTL_MS, p2⟩ := by
  have hnohit :
      (match cache (jsTrim q) with
        | some e => if e.expiresAt > t1 then some e.payload else none
        | none => none) = (none : Option String) := by
    cases hc : cache (jsTrim q) with
    | none => rfl
    | some e =>
      have := hmiss e hc
      simp [show ¬ (e.expiresAt > t1) by omega]
  have h1 : thumbRequest cache q t1 (.ok p1) =
      (.ok p1, thumbCacheSet cache (jsTrim q) ⟨t1 + THUMB_TTL_MS, p1⟩, true) := by
    rw [thumbRequest, if_neg hq, hnohit]
  have hget : thumbCacheSet cache (jsTrim q) ⟨t1 + THUMB_TTL_MS, p1⟩ (jsTrim q) =
      some ⟨t1 + THUMB_TTL_MS, p1⟩ := by
    simp [thumbCacheSet]
  have hst : (thumbRequest cache q t1 (.ok p1)).2.1 =
      thumbCacheSet cache (jsTrim q) ⟨t1 + THUMB_TTL_MS, p1⟩ := by
    rw [h1]
  refine ⟨by rw [h1], by rw [h1], by rw [hst]; exact hget, ?_, ?_, ?_, ?_⟩
  · rw [hst]
    simp [thumbRequest.eq_def, hq, hget, show t1 + THUMB_TTL_MS > t2 by omega]
  · rw [hst]
    rw [thumbRequest, if_neg hq, hget]
    simp [show ¬ (t1 + THUMB_TTL_MS > t3) by omega]
  · rw [hst]
    rw [thumbRequest, if_neg hq, hget]
    simp [show ¬ (t1 + THUMB_TTL_MS > t3) by omega]
  · rw [hst]
    rw [thumbRequest, if_neg hq, hget]
    simp [show ¬ (t1 + THUMB_TTL_MS > t3) by omega, thumbCacheSet]

/-- Witness for C8: a fresh cache, hit at 0 ms, re-read just before and
just after the 30-minute TTL. -/
theorem claim8_witness :
    thumbRequest
      (thumbRequest (fun _ => none) "1,2" 0 (.ok "thumbA")).2.1
      "1,2" 1799999 (.error "unused") =
      (.ok "thumbA",
        (thumbRequest (fun _ => none) "1,2" 0 (.ok "thumbA")).2.1, false) ∧
    (thumbRequest (thumbRequest (fun _ => none) "1,2" 0 (.ok "thumbA")).2.1
        "1,2" 1800000 (.ok "thumbB")).2.1 (jsTrim "1,2") =
      some ⟨1800000 + THUMB_TTL_MS, "thumbB"⟩ := by
  have h := claim8_thumb_cache (fun _ => none) "1,2" 0 1799999 1800000
      "thumbA" "thumbB" (.error "unused") (by decide) (by simp)
      (by decide) (by decide)
  exact ⟨h.2.2.2.1, h.2.2.2.2.2.2⟩

/-- C3: for every enriched game, likeRatio is null exactly when
upVotes+downVotes is 0 (missing vote fields counting as 0); otherwise it
equals upVotes/(upVotes+downVotes) rounded to 6 decimal places, and
whenever it is non-null it lies in [0, 1]. -/
theorem claim3_likeRatio (candidates : List Candidate)
    (dm : ℚ → Option GameDetail) (vm : ℚ → Option GameVotes)
    (fm : ℚ → Option ℚ) (g : EnrichedGame)
    (hg : g ∈ enrichCandidates candidates dm vm fm) :
    (g.likeRatio = none ↔ g.upVotes.getD 0 + g.downVotes.getD 0 = 0) ∧
    (∀ u d : ℕ, g.upVotes.getD 0 = u → g.downVotes.getD 0 = d → u + d ≠ 0 →
      g.likeRatio = some (round6 ((u : ℚ) / ((u : ℚ) + (d : ℚ))))) ∧
    (∀ r, g.likeRatio = some r → 0 ≤ r ∧ r ≤ 1) := by
  simp only [enrichCandidates] at hg
  obtain ⟨x, hx, rfl⟩ := List.mem_map.1 hg
  refine ⟨?_, ?_, ?_⟩
  · exact likeRatio_none_iff ((vm x.universeId).bind (·.upVotes))
      ((vm x.universeId).bind (·.downVotes))
  · intro u d hu hd hne
    subst hu
    subst hd
    exact likeRatio_pos_eq ((vm x.universeId).bind (·.upVotes))
      ((vm x.universeId).bind (·.downVotes)) hne
  · intro r hr
    exact likeRatio_mem_unit ((vm x.universeId).bind (·.upVotes))
      ((vm x.universeId).bind (·.downVotes)) r hr

/-- Witness for C3: 3 upvotes and 1 downvote give likeRatio 0.75, inside
[0, 1]. -/
theorem claim3_witness :
    (enrichOne (fun _ => none) (fun _ => some ⟨some 3, some 1⟩) (fun _ => none)
        ⟨42, none, none, none⟩).likeRatio = some (3 / 4) ∧
    (0 : ℚ) ≤ 3 / 4 ∧ (3 / 4 : ℚ) ≤ 1 := by
  have hmem : enrichOne (fun _ => none) (fun _ => some ⟨some 3, some 1⟩)
      (fun _ => none) ⟨42, none, none, none⟩ ∈
      enrichCandidates [⟨42, none, none, none⟩] (fun _ => none)
        (fun _ => some ⟨some 3, some 1⟩) (fun _ => none) := by
    simp [enrichCandidates]
  have h := claim3_likeRatio _ _ _ _ _ hmem
  have h2 := h.2.1 3 1 rfl rfl (by decide)
  refine ⟨h2.trans ?_, by norm_num, by norm_num⟩
  rw [round6, round_eq]
  norm_num

/-- C5 counterexample: the claim says `numbers` lists six core metrics, but
the fallback article's `numbers` has seven entries (the six metrics plus
the update timestamp), already on a concrete game. -/
theorem claim5_counterexample :
    ¬ ((fallbackArticle gameB).numbers.length = 6) := by decide

/-- C5 as amended: the fallback article is built deterministically from the
enriched record alone — title and gameName are the game name, deck and lede
are the truncated description, there are exactly three fixed-heading
sections, `numbers` lists SEVEN literal metric strings (playing, visits,
favorites, likeRatio, genre, maxPlayers, updated) with an em-dash for null
values, and a game with no description still yields a valid article using
the literal "설명이 없습니다." placeholder. -/
theorem claim5_amended_fallback (g : EnrichedGame) :
    (fallbackArticle g).title = g.name ∧
    (fallbackArticle g).gameName = g.name ∧
    (fallbackArticle g).deck = (clampDesc g.description 120).getD "설명이 없습니다." ∧
    (fallbackArticle g).lede = (clampDesc g.description 260).getD "설명이 없습니다." ∧
    (fallbackArticle g).sections.map Section.heading =
      ["무엇을 하는 게임인가", "플레이 포인트", "지표 요약"] ∧
    (fallbackArticle g).numbers =
      [ "동접(playing): " ++ showOptNum g.playing,
        "방문(visits): " ++ showOptNum g.visits,
        "즐겨찾기(favorites): " ++ showOptNum g.favorites,
        "좋아요 비율(likeRatio): " ++ showOptNum g.likeRatio,
        "장르(genre): " ++ showOptStr g.genre,
        "최대 인원(maxPlayers): " ++ showOptNum g.maxPlayers,
        "업데이트(updated): " ++ showOptStr g.updated ] ∧
    (fallbackArticle g).numbers.length = 7 ∧
    (g.playing = none →
      (fallbackArticle g).numbers.head? = some "동접(playing): —") ∧
    (g.description = none →
      (fallbackArticle g).deck = "설명이 없습니다." ∧
      (fallbackArticle g).lede = "설명이 없습니다." ∧
      ((fallbackArticle g).sections.map Section.text).head? =
        some "설명이 없습니다.") := by
  refine ⟨rfl, rfl, rfl, rfl, rfl, rfl, rfl, ?_, ?_⟩
  · intro h
    simp [fallbackArticle, h, showOptNum]
  · intro h
    refine ⟨?_, ?_, ?_⟩ <;> simp [fallbackArticle, clampDesc, h]

/-- Witness for C5 at a game with no description and a null playing
metric. -/
theorem claim5_witness :
    (fallbackArticle gameB).deck = "설명이 없습니다." ∧
    (fallbackArticle gameB).numbers.length = 7 ∧
    (fallbackArticle gameB).numbers.head? = some "동접(playing): —" := by
  have h := claim5_amended_fallback gameB
  exact ⟨(h.2.2.2.2.2.2.2.2 rfl).1, h.2.2.2.2.2.2.1,
    h.2.2.2.2.2.2.2.1 rfl⟩

/-- C2 counterexample: the claim says that after a failed refresh the
in-memory cached snapshot still holds the previous last-known-good
snapshot; but the code assigns `cachedSnapshot = snap` before attempting
`saveSnapshot`, so when the latest.json write fails the cached snapshot has
already changed. -/
theorem claim2_counterexample :
    ((refreshSnapshot stateW (.ok snapNextW) true false "t1").lastError.isSome
      = true) ∧
    (refreshSnapshot stateW (.ok snapNextW) true false "t1").cachedSnapshot ≠
      stateW.cachedSnapshot := by
  constructor
  · rfl
  · intro hcon
    have hc : (refreshSnapshot stateW (.ok snapNextW) true false
        "t1").cachedSnapshot = some snapNextW := rfl
    have hs : stateW.cachedSnapshot = some latestSnapW := rfl
    rw [hc, hs] at hcon
    injection hcon with hsnap
    exact absurd (congrArg Snapshot.generatedAt hsnap) (by decide)

/-- C2 as amended: when writing either snapshot file fails, the refresh
records the error and the `latest.json` content still holds its previous
document (the dated file may already have been written when only the
latest write fails), but the in-memory cached snapshot and `lastUpdated`
were already reassigned before the write and therefore do reflect the
failed run. -/
theorem claim2_amended_write_failure (st : ServerState) (snap : Snapshot)
    (okDated okLatest : Bool) (now : String)
    (h : okDated = false ∨ okLatest = false) :
    ((refreshSnapshot st (.ok snap) okDated okLatest now).lastError.isSome
      = true) ∧
    (refreshSnapshot st (.ok snap) okDated okLatest now).files "latest.json" =
      st.files "latest.json" ∧
    (refreshSnapshot st (.ok snap) okDated okLatest now).cachedSnapshot =
      some snap ∧
    (refreshSnapshot st (.ok snap) okDated okLatest now).lastUpdated =
      some now := by
  have hne : ("latest.json" : String) ≠ datedSnapshotName snap.generatedAt :=
    fun hh => datedSnapshotName_ne_latest snap.generatedAt hh.symm
  cases okDated with
  | false => exact ⟨rfl, rfl, rfl, rfl⟩
  | true =>
    have hl : okLatest = false := by
      rcases h with h | h
      · exact absurd h (by decide)
      · exact h
    subst hl
    refine ⟨rfl, ?_, rfl, rfl⟩
    show writeFileAt st.files (datedSnapshotName snap.generatedAt) snap
        "latest.json" = st.files "latest.json"
    simp [writeFileAt, hne]

/-- Witness for C2 (amended) at a concrete state: the latest-write failure
leaves latest.json with the old document while the cache holds the new
one. -/
theorem claim2_witness :
    ((refreshSnapshot stateW (.ok snapNextW) true false "t1").lastError.isSome
      = true) ∧
    (refreshSnapshot stateW (.ok snapNextW) true false "t1").files
      "latest.json" = some latestSnapW ∧
    (refreshSnapshot stateW (.ok snapNextW) true false "t1").cachedSnapshot =
      some snapNextW := by
  have h := claim2_amended_write_failure stateW snapNextW true false "t1"
    (Or.inr rfl)
  exact ⟨h.1, h.2.1.trans rfl, h.2.2.1⟩

end MineNews
